import Mathlib

/-!
Verification development for the crypto-snipper market-signal core.

The definitions below are a shallow embedding of the TypeScript sources:
* `src/services/orderbook-analyzer.ts` (OrderBookAnalyzer),
* `src/services/scalper.ts` (Scalper: analyze / checkScalpExit / analyzeWallsForExit /
  manualExit and its helpers),
* `src/services/realtime-fetcher.ts` (RealtimeFetcher: trade buffering, the
  every-N-trades DB save, and the WebSocket authentication / subscription ids).

JavaScript numbers are modelled as rationals (ℚ); timestamps as integers (ms).
External collaborators (the REST exchange gateway, the SQLite repositories, the
technical-indicator provider) appear as explicit inputs, so theorems quantify
over every value they could return.
-/

namespace CryptoSnipper

/-- Direction of an analyzer signal (TS `Direction = 'up' | 'down' | 'neutral'`). -/
inductive Direction
  | up
  | down
  | neutral
  deriving DecidableEq

/-- Result of OrderBookAnalyzer.detectWhales (TS literal union `'buy' | 'sell' | 'none'`). -/
inductive WhaleActivity
  | buy
  | sell
  | none
  deriving DecidableEq

/-- Sum of the volumes of one side of a REST order book, whose levels are
`[price, volume]` pairs: `orders.reduce((sum, [, volume]) => sum + volume, 0)`. -/
def depthOf (orders : List (ℚ × ℚ)) : ℚ :=
  (orders.map Prod.snd).sum

/-- `OrderBookAnalyzer.whaleThreshold = 0.1` (10% of total depth). -/
def whaleThreshold : ℚ := 0.1

/-- One side of `OrderBookAnalyzer.detectWhales`: the TS `for` loop returns as soon
as some single order has `volume > depth * whaleThreshold` (strict comparison). -/
def whaleScan (orders : List (ℚ × ℚ)) (depth : ℚ) : Bool :=
  match orders with
  | [] => false
  | l :: rest => if depth * whaleThreshold < l.2 then true else whaleScan rest depth

/-- `OrderBookAnalyzer.detectWhales`: bids are scanned first, then asks. -/
def detectWhales (bids asks : List (ℚ × ℚ)) (bidDepth askDepth : ℚ) : WhaleActivity :=
  if whaleScan bids bidDepth then WhaleActivity.buy
  else if whaleScan asks askDepth then WhaleActivity.sell
  else WhaleActivity.none

/-- Outcome of `OrderBookAnalyzer.generateSignal`. -/
structure SignalResult where
  signal : Direction
  confidence : ℚ
  deriving DecidableEq

/-- `OrderBookAnalyzer.generateSignal(imbalance, spreadPercent, whaleActivity,
bidAskRatio)`; the last parameter is named `bidAskRat` here. -/
def generateSignal (imbalance spreadPercent : ℚ) (whaleActivity : WhaleActivity)
    (bidAskRat : ℚ) : SignalResult :=
  let imbalancePart : ℚ × ℚ :=
    if 0.2 < imbalance then (0.4, 0)
    else if 0.1 < imbalance then (0.2, 0)
    else if imbalance < -0.2 then (0, 0.4)
    else if imbalance < -0.1 then (0, 0.2)
    else (0, 0)
  let whalePart : ℚ × ℚ :=
    match whaleActivity with
    | WhaleActivity.buy => (0.3, 0)
    | WhaleActivity.sell => (0, 0.3)
    | WhaleActivity.none => (0, 0)
  let ratPart : ℚ × ℚ :=
    if 1.5 < bidAskRat then (0.2, 0)
    else if 1.2 < bidAskRat then (0.1, 0)
    else if bidAskRat < 0.67 then (0, 0.2)
    else if bidAskRat < 0.83 then (0, 0.1)
    else (0, 0)
  let spreadPenalty := min 0.2 (spreadPercent * 0.1)
  let bullScore := imbalancePart.1 + whalePart.1 + ratPart.1 - spreadPenalty
  let bearScore := imbalancePart.2 + whalePart.2 + ratPart.2 - spreadPenalty
  let netScore := bullScore - bearScore
  if 0.15 < netScore then ⟨Direction.up, min 0.9 (0.5 + netScore)⟩
  else if netScore < -0.15 then ⟨Direction.down, min 0.9 (0.5 + |netScore|)⟩
  else ⟨Direction.neutral, 0.5⟩

/-- The numeric fields of `OrderBookAnalysis` computed by `OrderBookAnalyzer.analyze`
from the fetched book. The TS field `bidAskRatio` is named `bidAskRat` here. -/
structure OBMetrics where
  bidDepth : ℚ
  askDepth : ℚ
  bidAskRat : ℚ
  imbalance : ℚ
  spreadPercent : ℚ
  whaleActivity : WhaleActivity
  signal : Direction
  confidence : ℚ
  deriving DecidableEq

/-- Pure core of `OrderBookAnalyzer.analyze`: given the `bids`/`asks` levels of the
order book (however they were obtained: WebSocket cache or REST fetch), it computes
the depth sums, `bidAskRatio` (`askDepth > 0 ? bidDepth / askDepth : 1`), the
imbalance (`totalDepth > 0 ? (bidDepth - askDepth) / totalDepth : 0`), the spread,
whale detection and the generated signal. The wall lists, the support/resistance
levels and the persisted snapshot are not referenced by any claim and are omitted. -/
def analyzeOrderBook (bids asks : List (ℚ × ℚ)) : OBMetrics :=
  let bidDepth := depthOf bids
  let askDepth := depthOf asks
  let bidAskRat := if 0 < askDepth then bidDepth / askDepth else 1
  let totalDepth := bidDepth + askDepth
  let imbalance := if 0 < totalDepth then (bidDepth - askDepth) / totalDepth else 0
  let bestBid := ((bids.head?).map Prod.fst).getD 0
  let bestAsk := ((asks.head?).map Prod.fst).getD 0
  let midPrice := (bestBid + bestAsk) / 2
  let spreadPercent := if 0 < midPrice then (bestAsk - bestBid) / midPrice * 100 else 0
  let whaleActivity := detectWhales bids asks bidDepth askDepth
  let sr := generateSignal imbalance spreadPercent whaleActivity bidAskRat
  ⟨bidDepth, askDepth, bidAskRat, imbalance, spreadPercent, whaleActivity, sr.signal,
    sr.confidence⟩

/-! ## Scalper (src/services/scalper.ts): data model -/

/-- Trade direction of a scalp (TS `'long' | 'short'`). -/
inductive ScalpDirection
  | long
  | short
  deriving DecidableEq

/-- `ActiveScalp.status` (TS `'active' | 'tp_hit' | 'sl_hit' | 'manual_exit' |
'expired' | 'wall_exit'`). -/
inductive ScalpStatus
  | active
  | tp_hit
  | sl_hit
  | manual_exit
  | expired
  | wall_exit
  deriving DecidableEq

/-- Wall strength tiers (TS `'weak' | 'medium' | 'strong' | 'massive'`). -/
inductive WallStrength
  | weak
  | medium
  | strong
  | massive
  deriving DecidableEq

/-- `WallAnalysis.recommendation` (TS `'hold' | 'exit_profit' | 'tighten_tp'`). -/
inductive Recommendation
  | hold
  | exit_profit
  | tighten_tp
  deriving DecidableEq

/-- Side of a streamed trade (TS `'buy' | 'sell'`). -/
inductive TradeSide
  | buy
  | sell
  deriving DecidableEq

/-- Three-valued outcome of the Scalper's fast heuristics
(`analyzeRealtimeMomentum`, `analyzePriceAction`). -/
inductive TriSignal
  | long
  | short
  | neutral
  deriving DecidableEq

/-- `ScalpSignal` (scalper.ts). The presentation-only fields `type`, `reasons` and
the duplicate `spread` field (always set to the same value as `spreadPercent`) are
omitted; everything the exit logic and the claims read is kept. -/
structure ScalpSignal where
  direction : ScalpDirection
  symbol : String
  price : ℚ
  timestamp : Int
  entryPrice : ℚ
  takeProfit : ℚ
  stopLoss : ℚ
  takeProfitPercent : ℚ
  stopLossPercent : ℚ
  riskReward : ℚ
  confidence : ℚ
  spreadPercent : ℚ
  imbalance : ℚ
  nearestSupport : Option ℚ
  nearestResistance : Option ℚ
  deriving DecidableEq

/-- `ActiveScalp` (scalper.ts). The free-text `exitReason` field is omitted. -/
structure ActiveScalp where
  signal : ScalpSignal
  status : ScalpStatus
  entryTime : Int
  exitTime : Option Int
  exitPrice : Option ℚ
  profitPercent : Option ℚ
  duration : Option Int
  deriving DecidableEq

/-- `ScalpConfig` (scalper.ts). -/
structure ScalpConfig where
  takeProfitPercent : ℚ
  stopLossPercent : ℚ
  minRiskReward : ℚ
  minConfidence : ℚ
  minImbalance : ℚ
  volumeSpikeMultiplier : ℚ
  cooldownMs : Int
  enableWallExit : Bool
  minProfitForWallExit : ℚ
  wallBreakThreshold : ℚ
  deriving DecidableEq

/-- `DEFAULT_CONFIG` (scalper.ts). -/
def DEFAULT_CONFIG : ScalpConfig :=
  { takeProfitPercent := 0.3
    stopLossPercent := 0.15
    minRiskReward := 1.5
    minConfidence := 0.6
    minImbalance := 0.15
    volumeSpikeMultiplier := 2
    cooldownMs := 30000
    enableWallExit := true
    minProfitForWallExit := 0.1
    wallBreakThreshold := 0.3 }

/-- One level of the WebSocket order-book cache (`OrderBookData` entries in
realtime-fetcher.ts). -/
structure OBLevel where
  price : ℚ
  volume : ℚ
  volumeIdr : ℚ
  deriving DecidableEq

/-- The WebSocket order-book snapshot consumed by `Scalper.analyzeWallsForExit`
(`realtimeFetcher.getPrice(symbol)?.orderBook`); the `symbol`/`pair`/`timestamp`
bookkeeping fields are not read by the Scalper and are omitted. -/
structure OrderBookData where
  asks : List OBLevel
  bids : List OBLevel
  deriving DecidableEq

/-- `WallAnalysis` (scalper.ts). -/
structure WallAnalysis where
  hasBlockingWall : Bool
  wallPrice : ℚ
  wallStrength : WallStrength
  wallVolume : ℚ
  distancePercent : ℚ
  breakProbability : ℚ
  recommendation : Recommendation
  deriving DecidableEq

/-- The `defaultResult` literal at the top of `Scalper.analyzeWallsForExit`. -/
def defaultWallAnalysis : WallAnalysis :=
  { hasBlockingWall := false
    wallPrice := 0
    wallStrength := WallStrength.weak
    wallVolume := 0
    distancePercent := 0
    breakProbability := 1
    recommendation := Recommendation.hold }

/-- `Scalper.analyzeWallsForExit(symbol, currentPrice, signal)`. The realtime cache
lookup `realtimeFetcher.getPrice(symbol)?.orderBook` is passed in as `book`
(`none` when the cache has no order book for the symbol). The TS code first
collects `blockingWalls` (levels strictly between the current price and the TP on
the relevant side with `volumeIdr > 0`), then takes the strongest by `volumeIdr`
(`reduce` seeded with the first element), classifies the volume ratio against the
opposite side's depth, and derives the break probability and recommendation. -/
def analyzeWallsForExit (currentPrice : ℚ) (signal : ScalpSignal)
    (book : Option OrderBookData) : WallAnalysis :=
  match book with
  | Option.none => defaultWallAnalysis
  | Option.some ob =>
    let isLong := signal.direction = ScalpDirection.long
    let wallsToCheck := if isLong then ob.asks else ob.bids
    let targetPrice := signal.takeProfit
    let blockingWalls := wallsToCheck.filter (fun o =>
      if isLong then
        if currentPrice < o.price ∧ o.price < targetPrice ∧ 0 < o.volumeIdr then true
        else false
      else
        if o.price < currentPrice ∧ targetPrice < o.price ∧ 0 < o.volumeIdr then true
        else false)
    let totalBlockingVolume := (blockingWalls.map OBLevel.volumeIdr).sum
    match blockingWalls with
    | [] => defaultWallAnalysis
    | w :: rest =>
      let strongestWall := rest.foldl (fun m o => if m.volumeIdr < o.volumeIdr then o else m) w
      let oppositeOrders := if isLong then ob.bids else ob.asks
      let oppositeVolume := (oppositeOrders.map OBLevel.volumeIdr).sum
      let volumeRat := if 0 < oppositeVolume then totalBlockingVolume / oppositeVolume else 10
      let wallStrength : WallStrength :=
        if 3 < volumeRat then WallStrength.massive
        else if 2 < volumeRat then WallStrength.strong
        else if 1 < volumeRat then WallStrength.medium
        else WallStrength.weak
      let strengthPenalty : ℚ :=
        match wallStrength with
        | WallStrength.massive => 0.3
        | WallStrength.strong => 0.2
        | WallStrength.medium => 0.1
        | WallStrength.weak => 0
      let stackPenalty : ℚ :=
        if 5 ≤ blockingWalls.length then 0.2
        else if 3 ≤ blockingWalls.length then 0.1
        else 0
      let distancePercent := |(strongestWall.price - currentPrice) / currentPrice| * 100
      let proximityPenalty : ℚ := if distancePercent < 0.1 then 0.1 else 0
      let breakProbability :=
        max 0.05 (min 0.95 (0.5 - strengthPenalty - stackPenalty - proximityPenalty))
      let recommendation : Recommendation :=
        if breakProbability < 0.2 ∧ wallStrength = WallStrength.massive then
          Recommendation.exit_profit
        else if breakProbability < 0.3 ∧
            (wallStrength = WallStrength.strong ∨ wallStrength = WallStrength.massive) then
          Recommendation.exit_profit
        else if breakProbability < 0.4 then Recommendation.tighten_tp
        else Recommendation.hold
      { hasBlockingWall := true
        wallPrice := strongestWall.price
        wallStrength := wallStrength
        wallVolume := totalBlockingVolume
        distancePercent := distancePercent
        breakProbability := breakProbability
        recommendation := recommendation }

/-- The mutable fields of the `Scalper` class: `lastSignalTime` (a map defaulting to
`0`, matching `this.lastSignalTime.get(symbol) || 0`), `activeScalps` (at most one
entry per symbol key) and `tradeHistory`. -/
structure ScalperState where
  lastSignalTime : String → Int
  activeScalps : String → Option ActiveScalp
  tradeHistory : List ActiveScalp

/-- The state of a freshly constructed `Scalper`: empty maps and history. -/
def initialScalperState : ScalperState :=
  { lastSignalTime := fun _ => 0
    activeScalps := fun _ => Option.none
    tradeHistory := [] }

/-- Events emitted by the Scalper (`this.emit('signal', …)` / `this.emit('exit', …)`). -/
inductive ScalperEvent
  | signalEvent (s : ScalpSignal)
  | exitEvent (a : ActiveScalp)
  deriving DecidableEq

/-- Result of an exit-checking call: the updated Scalper state, the archived scalp
returned to the caller (if an exit happened), and the emitted events. -/
structure ExitResult where
  state : ScalperState
  exited : Option ActiveScalp
  events : List ScalperEvent

/-- The `currentPnL` computation of `Scalper.checkScalpExit`: the direction-aware
percentage PnL of a signal at the given price. -/
def scalpPnLPercent (signal : ScalpSignal) (currentPrice : ℚ) : ℚ :=
  if signal.direction = ScalpDirection.long then
    (currentPrice - signal.entryPrice) / signal.entryPrice * 100
  else (signal.entryPrice - currentPrice) / signal.entryPrice * 100

/-- The `exitReason` computation of `Scalper.checkScalpExit`: an inclusive TP/SL
crossing wins first (`>=` / `<=` for long, mirrored for short); failing that, a
wall exit fires when wall exit is enabled, the running PnL is at least
`minProfitForWallExit`, and the wall analysis reports a blocking wall with
`breakProbability < wallBreakThreshold` and recommendation `exit_profit`. -/
def scalpExitReason (cfg : ScalpConfig) (scalp : ActiveScalp) (currentPrice : ℚ)
    (book : Option OrderBookData) : Option ScalpStatus :=
  let signal := scalp.signal
  let tpslReason : Option ScalpStatus :=
    if signal.direction = ScalpDirection.long then
      if signal.takeProfit ≤ currentPrice then Option.some ScalpStatus.tp_hit
      else if currentPrice ≤ signal.stopLoss then Option.some ScalpStatus.sl_hit
      else Option.none
    else
      if currentPrice ≤ signal.takeProfit then Option.some ScalpStatus.tp_hit
      else if signal.stopLoss ≤ currentPrice then Option.some ScalpStatus.sl_hit
      else Option.none
  match tpslReason with
  | Option.some r => Option.some r
  | Option.none =>
    if cfg.enableWallExit ∧
        cfg.minProfitForWallExit ≤ scalpPnLPercent signal currentPrice then
      let wallAnalysis := analyzeWallsForExit currentPrice signal book
      if wallAnalysis.hasBlockingWall ∧
          wallAnalysis.breakProbability < cfg.wallBreakThreshold ∧
          wallAnalysis.recommendation = Recommendation.exit_profit then
        Option.some ScalpStatus.wall_exit
      else Option.none
    else Option.none

/-- `Scalper.checkScalpExit(symbol, currentPrice)`. `now` is the value of
`Date.now()` during the call and `book` the realtime order-book cache consumed by
`analyzeWallsForExit`. On exit the scalp is stamped (status, exitTime, exitPrice,
duration, profitPercent), moved from `activeScalps` to `tradeHistory`, and an
`'exit'` event is emitted; otherwise nothing changes and `null` is returned. -/
def checkScalpExit (cfg : ScalpConfig) (st : ScalperState) (symbol : String)
    (currentPrice : ℚ) (now : Int) (book : Option OrderBookData) : ExitResult :=
  match st.activeScalps symbol with
  | Option.none => ⟨st, Option.none, []⟩
  | Option.some scalp =>
    if scalp.status = ScalpStatus.active then
      match scalpExitReason cfg scalp currentPrice book with
      | Option.some r =>
        let archived : ActiveScalp :=
          { scalp with
            status := r
            exitTime := Option.some now
            exitPrice := Option.some currentPrice
            duration := Option.some (now - scalp.entryTime)
            profitPercent := Option.some (scalpPnLPercent scalp.signal currentPrice) }
        ⟨{ lastSignalTime := st.lastSignalTime
           activeScalps := Function.update st.activeScalps symbol Option.none
           tradeHistory := st.tradeHistory ++ [archived] },
          Option.some archived, [ScalperEvent.exitEvent archived]⟩
      | Option.none => ⟨st, Option.none, []⟩
    else ⟨st, Option.none, []⟩

/-- `Scalper.manualExit(symbol, exitPrice)`. It stamps the scalp
(`manual_exit`, exitTime, exitPrice, duration) and computes `profitPercent` with
its own inline direction-aware formula, then archives the scalp — but, unlike
`checkScalpExit`, it emits no event at all. -/
def manualExit (st : ScalperState) (symbol : String) (exitPrice : ℚ) (now : Int) :
    ExitResult :=
  match st.activeScalps symbol with
  | Option.none => ⟨st, Option.none, []⟩
  | Option.some scalp =>
    if scalp.status = ScalpStatus.active then
      let profitPercent :=
        if scalp.signal.direction = ScalpDirection.long then
          (exitPrice - scalp.signal.entryPrice) / scalp.signal.entryPrice * 100
        else
          (scalp.signal.entryPrice - exitPrice) / scalp.signal.entryPrice * 100
      let archived : ActiveScalp :=
        { scalp with
          status := ScalpStatus.manual_exit
          exitTime := Option.some now
          exitPrice := Option.some exitPrice
          duration := Option.some (now - scalp.entryTime)
          profitPercent := Option.some profitPercent }
      ⟨{ lastSignalTime := st.lastSignalTime
         activeScalps := Function.update st.activeScalps symbol Option.none
         tradeHistory := st.tradeHistory ++ [archived] },
        Option.some archived, []⟩
    else ⟨st, Option.none, []⟩

/-! ## Scalper: entry analysis (`Scalper.analyze`) -/

/-- The fields of an `orderbook-analyzer.ts` `Wall` that `Scalper.analyze` reads. -/
structure WallInfo where
  price : ℚ
  strength : WallStrength
  percentFromPrice : ℚ
  deriving DecidableEq

/-- The fields of an `OrderBookAnalysis` that `Scalper.analyze` reads from the
awaited `orderBookAnalyzer.analyze(symbol)` result. -/
structure OrderBookView where
  imbalance : ℚ
  spreadPercent : ℚ
  buyWalls : List WallInfo
  sellWalls : List WallInfo
  deriving DecidableEq

/-- Output of the external technical-indicator provider
(`technicalIndicators.calculate`), as read by `Scalper.analyze`. -/
structure Indicators where
  rsi : ℚ
  stochK : ℚ
  stochD : ℚ
  momentumSignal : Direction
  bollingerSignal : Direction
  deriving DecidableEq

/-- A streamed trade (`TradeData` in realtime-fetcher.ts). -/
structure TradeData where
  symbol : String
  pair : String
  timestamp : Int
  side : TradeSide
  price : ℚ
  volumeIdr : ℚ
  volumeCrypto : ℚ
  deriving DecidableEq

/-- An OHLCV candle (`PriceRecord` in types/index.ts); the TS field `open` is named
`openPrice` because `open` is a Lean keyword. -/
structure PriceRecord where
  symbol : String
  timestamp : Int
  openPrice : ℚ
  high : ℚ
  low : ℚ
  close : ℚ
  volume : ℚ
  deriving DecidableEq

/-- Everything one `Scalper.analyze` call reads from outside the Scalper's own
state: the awaited order-book analysis (`none` when `orderBookAnalyzer.analyze`
threw and the `catch` block dropped it), the technical-indicator outputs, the
`getLivePrices(symbol, 50)` series, the `realtimeFetcher.getTrades(symbol, 30)`
buffer, and the realtime order-book cache used by the delegated exit check. -/
structure AnalyzeEnv where
  orderBook : Option OrderBookView
  indicators : Indicators
  prices : List PriceRecord
  trades : List TradeData
  exitBook : Option OrderBookData

/-- The order-book contributions in `Scalper.analyze` (step 1): imbalance beyond
`minImbalance` (±0.25), a non-weak wall within 0.5% on either side (+0.2), and the
spread bonus/penalty (+0.1 both when < 0.1%, −0.15 both when > 0.3%). Returns the
pair (long contribution, short contribution). -/
def scoreOrderBook (cfg : ScalpConfig) (ob : Option OrderBookView) : ℚ × ℚ :=
  match ob with
  | Option.none => (0, 0)
  | Option.some b =>
    let imbalancePart : ℚ × ℚ :=
      if cfg.minImbalance < b.imbalance then (0.25, 0)
      else if b.imbalance < -cfg.minImbalance then (0, 0.25)
      else (0, 0)
    let nearestBuyWall := b.buyWalls.find? (fun w => w.strength != WallStrength.weak)
    let nearestSellWall := b.sellWalls.find? (fun w => w.strength != WallStrength.weak)
    let buyWallPart : ℚ :=
      match nearestBuyWall with
      | Option.some w => if |w.percentFromPrice| < 0.5 then 0.2 else 0
      | Option.none => 0
    let sellWallPart : ℚ :=
      match nearestSellWall with
      | Option.some w => if |w.percentFromPrice| < 0.5 then 0.2 else 0
      | Option.none => 0
    let spreadPart : ℚ × ℚ :=
      if b.spreadPercent < 0.1 then (0.1, 0.1)
      else if 0.3 < b.spreadPercent then (-0.15, -0.15)
      else (0, 0)
    (imbalancePart.1 + buyWallPart + spreadPart.1,
      imbalancePart.2 + sellWallPart + spreadPart.2)

/-- The technical-indicator contributions in `Scalper.analyze` (step 2): RSI
extremes (±0.25), stochastic crossovers (±0.2), momentum (±0.15) and Bollinger
touches (±0.15). -/
def scoreTechnical (ind : Indicators) : ℚ × ℚ :=
  let rsiPart : ℚ × ℚ :=
    if ind.rsi < 25 then (0.25, 0)
    else if 75 < ind.rsi then (0, 0.25)
    else (0, 0)
  let stochPart : ℚ × ℚ :=
    if ind.stochK < 20 ∧ ind.stochD < ind.stochK then (0.2, 0)
    else if 80 < ind.stochK ∧ ind.stochK < ind.stochD then (0, 0.2)
    else (0, 0)
  let momPart : ℚ × ℚ :=
    match ind.momentumSignal with
    | Direction.up => (0.15, 0)
    | Direction.down => (0, 0.15)
    | Direction.neutral => (0, 0)
  let bollPart : ℚ × ℚ :=
    match ind.bollingerSignal with
    | Direction.up => (0.15, 0)
    | Direction.down => (0, 0.15)
    | Direction.neutral => (0, 0)
  (rsiPart.1 + stochPart.1 + momPart.1 + bollPart.1,
    rsiPart.2 + stochPart.2 + momPart.2 + bollPart.2)

/-- `Scalper.analyzeRealtimeMomentum(symbol)` on the trade list returned by
`realtimeFetcher.getTrades(symbol, 30)`: buy/sell volume ratio plus price drift
over the trade window, falling back to the whale order-asymmetry heuristics. -/
def analyzeRealtimeMomentum (trades : List TradeData) : TriSignal × ℚ :=
  if trades.length < 10 then (TriSignal.neutral, 0)
  else
    let recentTrades := trades.take 20
    let buys := recentTrades.filter (fun t => t.side == TradeSide.buy)
    let sells := recentTrades.filter (fun t => t.side == TradeSide.sell)
    let buyVolume := (buys.map TradeData.volumeIdr).sum
    let sellVolume := (sells.map TradeData.volumeIdr).sum
    let buyCount := buys.length
    let sellCount := sells.length
    let totalVolume := buyVolume + sellVolume
    let buyRat := if 0 < totalVolume then buyVolume / totalVolume else 0.5
    let firstPrices := ((trades.drop 15).take 5).map TradeData.price
    let lastPrices := (trades.take 5).map TradeData.price
    let avgFirst := if 0 < firstPrices.length then firstPrices.sum / firstPrices.length else 0
    let avgLast := if 0 < lastPrices.length then lastPrices.sum / lastPrices.length else 0
    let priceMomentum := if 0 < avgFirst then (avgLast - avgFirst) / avgFirst * 100 else 0
    if 0.65 < buyRat ∧ 0.05 < priceMomentum then
      (TriSignal.long, min 0.3 ((buyRat - 0.5) * 0.6 + priceMomentum * 2))
    else if buyRat < 0.35 ∧ priceMomentum < -0.05 then
      (TriSignal.short, min 0.3 ((0.5 - buyRat) * 0.6 + |priceMomentum| * 2))
    else if (buyCount : ℚ) < (sellCount : ℚ) * 0.5 ∧ sellVolume * 1.5 < buyVolume then
      (TriSignal.long, 0.2)
    else if (sellCount : ℚ) < (buyCount : ℚ) * 0.5 ∧ buyVolume * 1.5 < sellVolume then
      (TriSignal.short, 0.2)
    else (TriSignal.neutral, 0)

/-- `Scalper.detectVolumeSpike(prices)`: current volume over the average of the
next nine (`volumes.slice(1, 10)`). -/
def detectVolumeSpike (prices : List PriceRecord) : ℚ :=
  if prices.length < 10 then 1
  else
    let volumes := prices.map PriceRecord.volume
    let avgVolume := ((volumes.drop 1).take 9).sum / 9
    let currentVolume := volumes.headD 0
    if 0 < avgVolume then currentVolume / avgVolume else 1

/-- `Scalper.analyzePriceAction(recentPrices)` (called on `prices.slice(0, 5)`):
engulfing patterns, hammer / shooting star, then 3+ consecutive candles of one
colour; fewer than three candles yields `neutral`. -/
def analyzePriceAction (recentPrices : List PriceRecord) : TriSignal :=
  match recentPrices with
  | latest :: prev :: third :: _ =>
    let firstThree := [latest, prev, third]
    let greenCount := (firstThree.filter (fun p => decide (p.openPrice < p.close))).length
    let redCount := (firstThree.filter (fun p => decide (p.close < p.openPrice))).length
    if latest.openPrice < latest.close ∧ prev.close < prev.openPrice ∧
        prev.openPrice < latest.close ∧ latest.openPrice < prev.close then
      TriSignal.long
    else if latest.close < latest.openPrice ∧ prev.openPrice < prev.close ∧
        latest.close < prev.openPrice ∧ prev.close < latest.openPrice then
      TriSignal.short
    else
      let bodySize := |latest.close - latest.openPrice|
      let lowerWick := min latest.openPrice latest.close - latest.low
      let upperWick := latest.high - max latest.openPrice latest.close
      if bodySize * 2 < lowerWick ∧ upperWick < bodySize * 0.5 then TriSignal.long
      else if bodySize * 2 < upperWick ∧ lowerWick < bodySize * 0.5 then TriSignal.short
      else if 3 ≤ greenCount then TriSignal.long
      else if 3 ≤ redCount then TriSignal.short
      else TriSignal.neutral
  | _ => TriSignal.neutral

/-- The accumulated (long, short) scores of one `Scalper.analyze` call: order-book
contributions, technical indicators (only once ≥ 20 price points are available),
realtime trade-flow momentum, the volume-spike boost (added to both sides), and
the price-action pattern. -/
def entryScores (cfg : ScalpConfig) (env : AnalyzeEnv) : ℚ × ℚ :=
  let obScores := scoreOrderBook cfg env.orderBook
  let techScores := if 20 ≤ env.prices.length then scoreTechnical env.indicators else (0, 0)
  let rm := analyzeRealtimeMomentum env.trades
  let rmScores : ℚ × ℚ :=
    match rm.1 with
    | TriSignal.long => (rm.2, 0)
    | TriSignal.short => (0, rm.2)
    | TriSignal.neutral => (0, 0)
  let volumeSpike := detectVolumeSpike env.prices
  let spikeBoost : ℚ :=
    if cfg.volumeSpikeMultiplier < volumeSpike then min 0.2 ((volumeSpike - 1) * 0.1)
    else 0
  let paScores : ℚ × ℚ :=
    match analyzePriceAction (env.prices.take 5) with
    | TriSignal.long => (0.2, 0)
    | TriSignal.short => (0, 0.2)
    | TriSignal.neutral => (0, 0)
  (obScores.1 + techScores.1 + rmScores.1 + spikeBoost + paScores.1,
    obScores.2 + techScores.2 + rmScores.2 + spikeBoost + paScores.2)

/-- The entry-signal part of `Scalper.analyze` (everything after the cooldown and
active-scalp guards): accumulates the weighted long/short contributions, picks the
direction by the larger score, rejects below `minConfidence` or below
`minRiskReward`, and otherwise builds the `ScalpSignal`, stamps
`lastSignalTime[symbol]`, stores the new active scalp, and emits `'signal'`. -/
def analyzeEntry (cfg : ScalpConfig) (st : ScalperState) (symbol : String)
    (currentPrice : ℚ) (now : Int) (env : AnalyzeEnv) :
    ScalperState × Option ScalpSignal × List ScalperEvent :=
  let longScore := (entryScores cfg env).1
  let shortScore := (entryScores cfg env).2
  let direction := if shortScore < longScore then ScalpDirection.long else ScalpDirection.short
  let confidence := max longScore shortScore
  if confidence < cfg.minConfidence then (st, Option.none, [])
  else
    let takeProfit :=
      if direction = ScalpDirection.long then currentPrice * (1 + cfg.takeProfitPercent / 100)
      else currentPrice * (1 - cfg.takeProfitPercent / 100)
    let stopLoss :=
      if direction = ScalpDirection.long then currentPrice * (1 - cfg.stopLossPercent / 100)
      else currentPrice * (1 + cfg.stopLossPercent / 100)
    let riskReward := cfg.takeProfitPercent / cfg.stopLossPercent
    if riskReward < cfg.minRiskReward then (st, Option.none, [])
    else
      let signal : ScalpSignal :=
        { direction := direction
          symbol := symbol
          price := currentPrice
          timestamp := now
          entryPrice := currentPrice
          takeProfit := takeProfit
          stopLoss := stopLoss
          takeProfitPercent := cfg.takeProfitPercent
          stopLossPercent := cfg.stopLossPercent
          riskReward := riskReward
          confidence := min 1 confidence
          spreadPercent := ((env.orderBook.map OrderBookView.spreadPercent).getD 0)
          imbalance := ((env.orderBook.map OrderBookView.imbalance).getD 0)
          nearestSupport := env.orderBook.bind (fun b => (b.buyWalls.head?).map WallInfo.price)
          nearestResistance :=
            env.orderBook.bind (fun b => (b.sellWalls.head?).map WallInfo.price) }
      let scalp : ActiveScalp :=
        { signal := signal
          status := ScalpStatus.active
          entryTime := now
          exitTime := Option.none
          exitPrice := Option.none
          profitPercent := Option.none
          duration := Option.none }
      ({ lastSignalTime := Function.update st.lastSignalTime symbol now
         activeScalps := Function.update st.activeScalps symbol (Option.some scalp)
         tradeHistory := st.tradeHistory },
        Option.some signal, [ScalperEvent.signalEvent signal])

/-- `Scalper.analyze(symbol, currentPrice)`: returns `null` while within the
cooldown window; with an active scalp present it delegates to `checkScalpExit` and
returns `null`; otherwise it runs the entry analysis. `now` stands for the
`Date.now()` readings of the call (the call is modelled as one atomic step of the
single-threaded event loop, per §5 of the specification). -/
def analyze (cfg : ScalpConfig) (st : ScalperState) (symbol : String)
    (currentPrice : ℚ) (now : Int) (env : AnalyzeEnv) :
    ScalperState × Option ScalpSignal × List ScalperEvent :=
  if now - st.lastSignalTime symbol < cfg.cooldownMs then (st, Option.none, [])
  else
    match st.activeScalps symbol with
    | Option.some scalp =>
      if scalp.status = ScalpStatus.active then
        let r := checkScalpExit cfg st symbol currentPrice now env.exitBook
        (r.state, Option.none, r.events)
      else analyzeEntry cfg st symbol currentPrice now env
    | Option.none => analyzeEntry cfg st symbol currentPrice now env

/-! ## Traces of `Scalper.analyze` calls -/

/-- The arguments and environment of one `Scalper.analyze` call. -/
structure AnalyzeCall where
  symbol : String
  currentPrice : ℚ
  now : Int
  env : AnalyzeEnv

/-- One `analyze` call applied to an accumulated (state, emitted-signals log). -/
def stepTrace (cfg : ScalpConfig) (acc : ScalperState × List ScalpSignal)
    (c : AnalyzeCall) : ScalperState × List ScalpSignal :=
  let r := analyze cfg acc.1 c.symbol c.currentPrice c.now c.env
  (r.1, acc.2 ++ r.2.1.toList)

/-- A sequence of `analyze` calls from an arbitrary starting point. -/
def runTraceFrom (cfg : ScalpConfig) (acc : ScalperState × List ScalpSignal)
    (calls : List AnalyzeCall) : ScalperState × List ScalpSignal :=
  calls.foldl (stepTrace cfg) acc

/-- A sequence of `analyze` calls against a freshly constructed `Scalper`. -/
def runTrace (cfg : ScalpConfig) (calls : List AnalyzeCall) :
    ScalperState × List ScalpSignal :=
  runTraceFrom cfg (initialScalperState, []) calls

/-- Emission timestamps of the logged signals for one symbol, in emission order. -/
def emissionTimes (log : List ScalpSignal) (symbol : String) : List Int :=
  (log.filter (fun s => s.symbol == symbol)).map ScalpSignal.timestamp

/-! ## RealtimeFetcher (realtime-fetcher.ts): trade buffering and the DB save -/

/-- `Math.max(...prices)` over a non-empty list (the empty case never occurs in
`saveTradeToDb`, which requires at least two buffered trades). -/
def listMax (l : List ℚ) : ℚ :=
  match l with
  | [] => 0
  | h :: t => t.foldl max h

/-- `Math.min(...prices)` over a non-empty list. -/
def listMin (l : List ℚ) : ℚ :=
  match l with
  | [] => 0
  | h :: t => t.foldl min h

/-- The OHLCV candle built by `RealtimeFetcher.saveTradeToDb` from the last ten
buffered trades (`buffer.slice(-10)`) and the trade currently being processed:
open/high/low/volume come from the buffered slice, while `close` and the
(second-resolution) timestamp come from the incoming trade itself. -/
def candleOf (symbol : String) (buffer : List TradeData) (trade : TradeData) :
    PriceRecord :=
  let recentTrades := buffer.drop (buffer.length - 10)
  let prices := recentTrades.map TradeData.price
  { symbol := symbol
    timestamp := Int.fdiv trade.timestamp 1000
    openPrice := prices.headD 0
    high := listMax prices
    low := listMin prices
    close := trade.price
    volume := (recentTrades.map TradeData.volumeCrypto).sum }

/-- The per-symbol state of the `RealtimeFetcher` relevant to trade buffering:
the entry of `tradeBuffer` for the symbol (`none` before the first trade created
it) and the price records handed to `priceRepo.insertPrice` (the Historical Price
Store swallows duplicate-key failures, so the hand-off is recorded as a list). -/
structure RTState where
  buffer : Option (List TradeData)
  inserts : List PriceRecord

/-- A `RealtimeFetcher` that has not yet buffered any trade for the symbol. -/
def initialRTState : RTState :=
  { buffer := Option.none, inserts := [] }

/-- `RealtimeFetcher.saveTradeToDb(symbol, trade)`: re-reads the buffer
(`this.tradeBuffer.get(symbol) || []`), bails out below two entries, otherwise
inserts the aggregated candle. -/
def saveTradeToDb (symbol : String) (st : RTState) (trade : TradeData) : RTState :=
  let buffer := st.buffer.getD []
  if buffer.length < 2 then st
  else { st with inserts := st.inserts ++ [candleOf symbol buffer trade] }

/-- The DB-save trigger at the end of `RealtimeFetcher.updatePriceCache`: the save
runs when the symbol's buffer exists and its length — before the current trade has
been appended — is divisible by 10 (`if (buffer && buffer.length % 10 === 0)`).
The price-statistics fields of the cache (price, change, 24h high/low/volume) are
not read by any claim and are omitted. -/
def updatePriceCacheSave (symbol : String) (st : RTState) (trade : TradeData) :
    RTState :=
  match st.buffer with
  | Option.some b => if b.length % 10 = 0 then saveTradeToDb symbol st trade else st
  | Option.none => st

/-- The per-trade body of `RealtimeFetcher.handleTradeActivity`: first
`updatePriceCache` (which may trigger the DB save), then the trade is pushed onto
the buffer, which is capped at 100 entries by shifting the oldest one off. -/
def handleTrade (symbol : String) (st : RTState) (trade : TradeData) : RTState :=
  let st1 := updatePriceCacheSave symbol st trade
  let b := st1.buffer.getD [] ++ [trade]
  { st1 with buffer := Option.some (if 100 < b.length then b.drop 1 else b) }

/-- A stream of trades for one symbol processed by `handleTradeActivity`. -/
def runTrades (symbol : String) (trades : List TradeData) : RTState :=
  trades.foldl (handleTrade symbol) initialRTState

/-! ## RealtimeFetcher: WebSocket session and message ids -/

/-- Outbound WebSocket messages sent by the `RealtimeFetcher`:
`{params: {token}, id}` for authentication, `{method: 1, params: {channel}, id}`
for subscribe, `{method: 2, params: {channel}, id}` for unsubscribe. -/
inductive OutMsg
  | authMsg (msgId : Nat)
  | subscribeMsg (channel : String) (msgId : Nat)
  | unsubscribeMsg (channel : String) (msgId : Nat)
  deriving DecidableEq

/-- The connection-level fields of the `RealtimeFetcher`: the `messageId` counter
(initialised to 1 and only ever incremented — it is never reset), the
`isConnected` flag, and the `subscribedSymbols` set (kept as a duplicate-free
list). -/
structure WSState where
  messageId : Nat
  isConnected : Bool
  subscribedSymbols : List String
  deriving DecidableEq

/-- A freshly constructed `RealtimeFetcher`. -/
def initialWSState : WSState :=
  { messageId := 1, isConnected := false, subscribedSymbols := [] }

/-- `RealtimeFetcher.symbolToPair`: drop the slash, lowercase
(`symbol.replace('/', '').toLowerCase()`). -/
def symbolToPair (symbol : String) : String :=
  String.mk ((symbol.data.filter (fun c => c != '/')).map Char.toLower)

/-- `RealtimeFetcher.authenticate()`: sends `{params: {token}, id: this.messageId++}`
— the id is whatever the counter currently holds, after which the counter is
incremented. -/
def authenticate (st : WSState) : WSState × List OutMsg :=
  ({ st with messageId := st.messageId + 1 }, [OutMsg.authMsg st.messageId])

/-- `RealtimeFetcher.subscribeToSymbol(symbol)`: when connected, sends the
trade-activity and order-book channel subscriptions, each consuming one id. -/
def subscribeToSymbol (st : WSState) (symbol : String) : WSState × List OutMsg :=
  if st.isConnected then
    let pair := symbolToPair symbol
    ({ st with messageId := st.messageId + 2 },
      [OutMsg.subscribeMsg ("market:trade-activity-" ++ pair) st.messageId,
        OutMsg.subscribeMsg ("market:order-book-" ++ pair) (st.messageId + 1)])
  else (st, [])

/-- The auth-response branch of `RealtimeFetcher.handleMessage`: only a message
with `id === 1` and a truthy `result` is treated as authentication success, upon
which the client marks itself connected and resubscribes every tracked symbol. -/
def handleAuthResponse (st : WSState) (respId : Nat) (result : Bool) :
    WSState × List OutMsg :=
  if respId = 1 ∧ result then
    let connectedSt := { st with isConnected := true }
    st.subscribedSymbols.foldl
      (fun acc symbol =>
        let r := subscribeToSymbol acc.1 symbol
        (r.1, acc.2 ++ r.2))
      (connectedSt, [])
  else (st, [])

/-- `RealtimeFetcher.subscribe(symbol)`: adds the symbol to the tracked set and, if
currently connected, sends the channel subscriptions immediately. -/
def subscribeCmd (st : WSState) (symbol : String) : WSState × List OutMsg :=
  let st1 := { st with
    subscribedSymbols :=
      if symbol ∈ st.subscribedSymbols then st.subscribedSymbols
      else st.subscribedSymbols ++ [symbol] }
  if st1.isConnected then subscribeToSymbol st1 symbol else (st1, [])

/-- External events driving the WebSocket client: the socket's `open` callback
(which triggers `authenticate`), an inbound auth response, a `subscribe` request
from a consumer, and a transport close (which clears `isConnected` and schedules
the reconnect whose `open` callback is the next `connectOpen` event). -/
inductive WSEvent
  | connectOpen
  | authResponse (respId : Nat) (result : Bool)
  | subscribeReq (symbol : String)
  | transportClose
  deriving DecidableEq

/-- One step of the WebSocket client. -/
def wsStep (st : WSState) (e : WSEvent) : WSState × List OutMsg :=
  match e with
  | WSEvent.connectOpen => authenticate st
  | WSEvent.authResponse respId result => handleAuthResponse st respId result
  | WSEvent.subscribeReq symbol => subscribeCmd st symbol
  | WSEvent.transportClose => ({ st with isConnected := false }, [])

/-- Run a sequence of client events, collecting every outbound message in order. -/
def runWS (events : List WSEvent) : WSState × List OutMsg :=
  events.foldl
    (fun acc e =>
      let r := wsStep acc.1 e
      (r.1, acc.2 ++ r.2))
    (initialWSState, [])

/-! ## Concrete fixtures used by the scenario theorems and witnesses -/

/-- An environment in which every external source is empty or neutral. -/
def envTrivial : AnalyzeEnv :=
  { orderBook := Option.none
    indicators :=
      { rsi := 50, stochK := 50, stochD := 50
        momentumSignal := Direction.neutral, bollingerSignal := Direction.neutral }
    prices := []
    trades := []
    exitBook := Option.none }

/-- The active long scalp of the C3 scenario: entry 100, TP 100.3, SL 99.85. -/
def signalC3 : ScalpSignal :=
  { direction := ScalpDirection.long
    symbol := "BTC/IDR"
    price := 100
    timestamp := 100000
    entryPrice := 100
    takeProfit := 100.3
    stopLoss := 99.85
    takeProfitPercent := 0.3
    stopLossPercent := 0.15
    riskReward := 2
    confidence := 0.8
    spreadPercent := 0.05
    imbalance := 0.2
    nearestSupport := Option.none
    nearestResistance := Option.none }

/-- The C3 scalp, still active. -/
def scalpC3 : ActiveScalp :=
  { signal := signalC3
    status := ScalpStatus.active
    entryTime := 100000
    exitTime := Option.none
    exitPrice := Option.none
    profitPercent := Option.none
    duration := Option.none }

/-- Scalper state holding exactly the C3 scalp. -/
def stC3 : ScalperState :=
  { lastSignalTime := fun _ => 100000
    activeScalps := fun s => if s = "BTC/IDR" then Option.some scalpC3 else Option.none
    tradeHistory := [] }

/-- A realtime book whose only ask sits beyond the C3 take profit, so no wall
blocks the path from the current price to the TP. -/
def bookC3 : OrderBookData :=
  { asks := [{ price := 100.5, volume := 1, volumeIdr := 50 }]
    bids := [{ price := 99.9, volume := 1, volumeIdr := 50 }] }

/-- The active long scalp of the C4 scenario: entry 1000, TP 1005, SL 998. -/
def signalC4 : ScalpSignal :=
  { direction := ScalpDirection.long
    symbol := "ETH/IDR"
    price := 1000
    timestamp := 100000
    entryPrice := 1000
    takeProfit := 1005
    stopLoss := 998
    takeProfitPercent := 0.5
    stopLossPercent := 0.2
    riskReward := 2.5
    confidence := 0.8
    spreadPercent := 0.05
    imbalance := 0.2
    nearestSupport := Option.none
    nearestResistance := Option.none }

/-- The C4 scalp, still active. -/
def scalpC4 : ActiveScalp :=
  { signal := signalC4
    status := ScalpStatus.active
    entryTime := 100000
    exitTime := Option.none
    exitPrice := Option.none
    profitPercent := Option.none
    duration := Option.none }

/-- Scalper state holding exactly the C4 scalp. -/
def stC4 : ScalperState :=
  { lastSignalTime := fun _ => 100000
    activeScalps := fun s => if s = "ETH/IDR" then Option.some scalpC4 else Option.none
    tradeHistory := [] }

/-- The C4 book at current price 1001.5 (+0.15% over the entry 1000): five ask
levels strictly between 1001.5 and the TP 1005, total blocking volume 80 (IDR),
strongest level at 1003.503 = +0.2% from the current price, against a bid side of
total depth 20 — a 4× volume ratio across 5 stacked walls. -/
def bookC4 : OrderBookData :=
  { asks :=
      [{ price := 1002, volume := 0.01, volumeIdr := 10 },
        { price := 1002.5, volume := 0.01, volumeIdr := 10 },
        { price := 1003, volume := 0.01, volumeIdr := 10 },
        { price := 1003.503, volume := 0.04, volumeIdr := 40 },
        { price := 1004, volume := 0.01, volumeIdr := 10 }]
    bids := [{ price := 1001, volume := 0.02, volumeIdr := 20 }] }

/-- The active long scalp used for the manual-exit counterexample: entry 100. -/
def scalpC5 : ActiveScalp :=
  { signal :=
      { direction := ScalpDirection.long
        symbol := "SOL/IDR"
        price := 100
        timestamp := 100000
        entryPrice := 100
        takeProfit := 100.3
        stopLoss := 99.85
        takeProfitPercent := 0.3
        stopLossPercent := 0.15
        riskReward := 2
        confidence := 0.8
        spreadPercent := 0.05
        imbalance := 0.2
        nearestSupport := Option.none
        nearestResistance := Option.none }
    status := ScalpStatus.active
    entryTime := 100000
    exitTime := Option.none
    exitPrice := Option.none
    profitPercent := Option.none
    duration := Option.none }

/-- Scalper state holding exactly the C5 scalp. -/
def stC5 : ScalperState :=
  { lastSignalTime := fun _ => 100000
    activeScalps := fun s => if s = "SOL/IDR" then Option.some scalpC5 else Option.none
    tradeHistory := [] }

/-- The C5 scalp as archived by `manualExit` at price 101 and time 200000:
duration 100000 ms, PnL (101 − 100)/100 × 100 = 1%. -/
def scalpC5Archived : ActiveScalp :=
  { scalpC5 with
    status := ScalpStatus.manual_exit
    exitTime := Option.some 200000
    exitPrice := Option.some 101
    duration := Option.some 100000
    profitPercent := Option.some 1 }

/-- A fixed trade used to drive the buffering cadence (its numeric content is
irrelevant to when the DB save fires). -/
def tradeC6 : TradeData :=
  { symbol := "BTC/IDR"
    pair := "btcidr"
    timestamp := 1700000000000
    side := TradeSide.buy
    price := 5
    volumeIdr := 50
    volumeCrypto := 1 }

/-- The C9 event trace: first connect, successful authentication, one subscription,
transport close, reconnect. -/
def traceC9 : List WSEvent :=
  [WSEvent.connectOpen, WSEvent.authResponse 1 true,
    WSEvent.subscribeReq "BTC/IDR", WSEvent.transportClose, WSEvent.connectOpen]

/-- Invariant tying a Scalper state to the log of signals emitted so far: for each
symbol, every logged emission timestamp is bounded by `lastSignalTime`, and
consecutive-or-later emissions are at least `cooldownMs` apart. -/
def TraceInv (cfg : ScalpConfig) (st : ScalperState) (log : List ScalpSignal) : Prop :=
  ∀ symbol : String,
    (∀ t ∈ emissionTimes log symbol, t ≤ st.lastSignalTime symbol) ∧
      (emissionTimes log symbol).Pairwise (fun a b => a + cfg.cooldownMs ≤ b)

/-- Two `analyze` calls for the same symbol, 40 s apart. -/
def callsW2 : List AnalyzeCall :=
  [{ symbol := "BTC/IDR", currentPrice := 100, now := 100000, env := envTrivial },
    { symbol := "BTC/IDR", currentPrice := 100, now := 140000, env := envTrivial }]

/-! ## Theorems -/

/-- C9 (code bug): on the trace connect → auth success → subscribe BTC/IDR →
transport close → reconnect, the first connect's auth message carries id 1, but the
reconnect's auth message carries id 4, because `authenticate` uses the
ever-incrementing `this.messageId++`; and since `handleMessage` only accepts an
auth response with `id === 1`, the matching response (id 4) is never recognised —
the client stays disconnected. The claim says every connect's first outbound
message has id 1. -/
theorem reconnect_auth_id_not_one :
    (runWS traceC9).2 =
      [OutMsg.authMsg 1,
        OutMsg.subscribeMsg "market:trade-activity-btcidr" 2,
        OutMsg.subscribeMsg "market:order-book-btcidr" 3,
        OutMsg.authMsg 4] ∧
      (wsStep (runWS traceC9).1 (WSEvent.authResponse 4 true)).1.isConnected = false := by
  constructor
  · decide
  · decide

/-- C3: for the active long scalp with entry 100, TP 100.3, SL 99.85, a tick of
100.3 exits with `tp_hit` and a tick of 99.85 exits with `sl_hit` (both crossings
inclusive), while a tick of 100.1 with no wall between the price and the TP
produces no exit and leaves the scalp active in the map. -/
theorem scalp_exit_scenario :
    ((checkScalpExit DEFAULT_CONFIG stC3 "BTC/IDR" 100.3 160000
        (Option.some bookC3)).exited.map ActiveScalp.status =
      Option.some ScalpStatus.tp_hit) ∧
    ((checkScalpExit DEFAULT_CONFIG stC3 "BTC/IDR" 99.85 160000
        (Option.some bookC3)).exited.map ActiveScalp.status =
      Option.some ScalpStatus.sl_hit) ∧
    ((checkScalpExit DEFAULT_CONFIG stC3 "BTC/IDR" 100.1 160000
        (Option.some bookC3)).exited = Option.none) ∧
    ((checkScalpExit DEFAULT_CONFIG stC3 "BTC/IDR" 100.1 160000
        (Option.some bookC3)).state.activeScalps "BTC/IDR" =
      Option.some scalpC3) := by
  refine ⟨?_, ?_, ?_, ?_⟩ <;>
    norm_num [checkScalpExit, scalpExitReason, scalpPnLPercent, stC3, scalpC3,
      signalC3, bookC3, DEFAULT_CONFIG, analyzeWallsForExit, defaultWallAnalysis]

/-- C4: at +0.15% profit (entry 1000, price 1001.5), with five ask levels between
the price and the TP totalling 4× the bid side's depth and the strongest wall at
+0.2% from the price, `analyzeWallsForExit` reports a blocking wall of strength
`massive` with `breakProbability = max(0.05, min(0.95, 0.5 − 0.3 − 0.2)) = 0.05 <
0.2` and recommendation `exit_profit`, and `checkScalpExit` exits the scalp with
status `wall_exit`. -/
theorem wall_exit_scenario :
    (analyzeWallsForExit 1001.5 signalC4 (Option.some bookC4)).hasBlockingWall = true ∧
    (analyzeWallsForExit 1001.5 signalC4 (Option.some bookC4)).wallStrength =
      WallStrength.massive ∧
    (analyzeWallsForExit 1001.5 signalC4 (Option.some bookC4)).wallVolume = 80 ∧
    (analyzeWallsForExit 1001.5 signalC4 (Option.some bookC4)).distancePercent = 0.2 ∧
    (analyzeWallsForExit 1001.5 signalC4 (Option.some bookC4)).breakProbability = 0.05 ∧
    (analyzeWallsForExit 1001.5 signalC4 (Option.some bookC4)).breakProbability < 0.2 ∧
    (analyzeWallsForExit 1001.5 signalC4 (Option.some bookC4)).recommendation =
      Recommendation.exit_profit ∧
    ((checkScalpExit DEFAULT_CONFIG stC4 "ETH/IDR" 1001.5 160000
        (Option.some bookC4)).exited.map ActiveScalp.status =
      Option.some ScalpStatus.wall_exit) := by
  refine ⟨?_, ?_, ?_, ?_, ?_, ?_, ?_, ?_⟩ <;>
    norm_num [checkScalpExit, scalpExitReason, scalpPnLPercent, stC4, scalpC4,
      signalC4, bookC4, DEFAULT_CONFIG, analyzeWallsForExit, defaultWallAnalysis,
      abs_of_nonneg]

/-- C5 counterexample: a manual exit of an active scalp archives it with status
`manual_exit`, yet `manualExit` emits no event at all — contradicting the claim
that every exit (manual included) emits the `'exit'` event. -/
theorem manual_exit_emits_no_event :
    ((manualExit stC5 "SOL/IDR" 101 200000).exited.map ActiveScalp.status =
      Option.some ScalpStatus.manual_exit) ∧
      (manualExit stC5 "SOL/IDR" 101 200000).events = [] := by
  constructor <;> norm_num [manualExit, stC5, scalpC5]

/-- C5 (amended): every exit produced by `checkScalpExit` (tp_hit, sl_hit or
wall_exit) removes the scalp from `activeScalps`, appends it to `tradeHistory`
stamped with exitTime, exitPrice, duration and the direction-aware PnL, and emits
the `'exit'` event; `manualExit` archives the scalp the same way with the same
direction-aware PnL formula — but emits no event. -/
theorem exit_archival :
    (∀ (cfg : ScalpConfig) (st : ScalperState) (symbol : String) (currentPrice : ℚ)
        (now : Int) (book : Option OrderBookData) (a : ActiveScalp),
      (checkScalpExit cfg st symbol currentPrice now book).exited = Option.some a →
        (checkScalpExit cfg st symbol currentPrice now book).state.activeScalps symbol =
            Option.none ∧
          (checkScalpExit cfg st symbol currentPrice now book).state.tradeHistory =
            st.tradeHistory ++ [a] ∧
          (checkScalpExit cfg st symbol currentPrice now book).events =
            [ScalperEvent.exitEvent a] ∧
          a.exitTime = Option.some now ∧
          a.exitPrice = Option.some currentPrice ∧
          a.duration = Option.some (now - a.entryTime) ∧
          a.profitPercent = Option.some
            (if a.signal.direction = ScalpDirection.long then
              (currentPrice - a.signal.entryPrice) / a.signal.entryPrice * 100
            else (a.signal.entryPrice - currentPrice) / a.signal.entryPrice * 100)) ∧
    (∀ (st : ScalperState) (symbol : String) (exitPrice : ℚ) (now : Int)
        (a : ActiveScalp),
      (manualExit st symbol exitPrice now).exited = Option.some a →
        (manualExit st symbol exitPrice now).state.activeScalps symbol = Option.none ∧
          (manualExit st symbol exitPrice now).state.tradeHistory =
            st.tradeHistory ++ [a] ∧
          (manualExit st symbol exitPrice now).events = [] ∧
          a.status = ScalpStatus.manual_exit ∧
          a.exitTime = Option.some now ∧
          a.exitPrice = Option.some exitPrice ∧
          a.duration = Option.some (now - a.entryTime) ∧
          a.profitPercent = Option.some
            (if a.signal.direction = ScalpDirection.long then
              (exitPrice - a.signal.entryPrice) / a.signal.entryPrice * 100
            else (a.signal.entryPrice - exitPrice) / a.signal.entryPrice * 100)) := by
  constructor
  · intro cfg st symbol currentPrice now book a
    unfold checkScalpExit
    split
    · intro h
      simp at h
    · split
      · split
        · intro h
          simp only [Option.some.injEq] at h
          subst h
          refine ⟨?_, rfl, rfl, rfl, rfl, rfl, ?_⟩
          · exact Function.update_same symbol Option.none st.activeScalps
          · simp [scalpPnLPercent]
        · intro h
          simp at h
      · intro h
        simp at h
  · intro st symbol exitPrice now a
    unfold manualExit
    split
    · intro h
      simp at h
    · split
      · intro h
        simp only [Option.some.injEq] at h
        subst h
        refine ⟨?_, rfl, rfl, rfl, rfl, rfl, rfl, rfl⟩
        exact Function.update_same symbol Option.none st.activeScalps
      · intro h
        simp at h

/-- Witness for the amended C5 theorem: the manual-exit clause applied to the
concrete active scalp `scalpC5` (entry 100) closed at 101. -/
theorem exit_archival_witness :
    (manualExit stC5 "SOL/IDR" 101 200000).state.activeScalps "SOL/IDR" =
        Option.none ∧
      (manualExit stC5 "SOL/IDR" 101 200000).state.tradeHistory =
        stC5.tradeHistory ++ [scalpC5Archived] ∧
      (manualExit stC5 "SOL/IDR" 101 200000).events = [] ∧
      scalpC5Archived.status = ScalpStatus.manual_exit ∧
      scalpC5Archived.exitTime = Option.some 200000 ∧
      scalpC5Archived.exitPrice = Option.some 101 ∧
      scalpC5Archived.duration = Option.some (200000 - scalpC5Archived.entryTime) ∧
      scalpC5Archived.profitPercent = Option.some
        (if scalpC5Archived.signal.direction = ScalpDirection.long then
          (101 - scalpC5Archived.signal.entryPrice) / scalpC5Archived.signal.entryPrice * 100
        else
          (scalpC5Archived.signal.entryPrice - 101) / scalpC5Archived.signal.entryPrice
            * 100) :=
  exit_archival.2 stC5 "SOL/IDR" 101 200000 scalpC5Archived
    (by norm_num [manualExit, stC5, scalpC5, scalpC5Archived])

set_option maxRecDepth 8000 in
/-- C6 (code bug): after 10 trades no candle has been inserted (the claim demands
one at the 10th trade); the first insert happens at trade 11; by trade 101 there
are 10 inserts; and once the buffer is capped at 100 entries the pre-append length
stays at 100, so trades 102 and 103 each insert again — consecutive trades one
apart — instead of keeping the every-10th cadence. -/
theorem save_cadence_diverges :
    (runTrades "BTC/IDR" (List.replicate 10 tradeC6)).inserts.length = 0 ∧
      (runTrades "BTC/IDR" (List.replicate 11 tradeC6)).inserts.length = 1 ∧
      (runTrades "BTC/IDR" (List.replicate 101 tradeC6)).inserts.length = 10 ∧
      (runTrades "BTC/IDR" (List.replicate 102 tradeC6)).inserts.length = 11 ∧
      (runTrades "BTC/IDR" (List.replicate 103 tradeC6)).inserts.length = 12 := by
  refine ⟨?_, ?_, ?_, ?_, ?_⟩ <;> decide

/-- Helper: `checkScalpExit` never touches `lastSignalTime`, and its `activeScalps`
map is either left unchanged or has exactly the checked symbol's entry removed. -/
theorem checkScalpExit_state (cfg : ScalpConfig) (st : ScalperState) (symbol : String)
    (currentPrice : ℚ) (now : Int) (book : Option OrderBookData) :
    (checkScalpExit cfg st symbol currentPrice now book).state.lastSignalTime =
        st.lastSignalTime ∧
      ((checkScalpExit cfg st symbol currentPrice now book).state.activeScalps =
          st.activeScalps ∨
        (checkScalpExit cfg st symbol currentPrice now book).state.activeScalps =
          Function.update st.activeScalps symbol Option.none) := by
  unfold checkScalpExit
  split
  · exact ⟨rfl, Or.inl rfl⟩
  · split
    · split
      · exact ⟨rfl, Or.inr rfl⟩
      · exact ⟨rfl, Or.inl rfl⟩
    · exact ⟨rfl, Or.inl rfl⟩

/-- C1: with an active scalp present for a symbol, `analyze` emits no signal and
never creates a new `ActiveScalp`: afterwards the `activeScalps` map differs from
the old one at most at that symbol, where the entry is either the same scalp or
removed (by the delegated exit check) — never a fresh entry. Together with the
map holding at most one entry per symbol key, the per-symbol active-scalp count
stays 0 or 1 across any sequence of `analyze` calls (each call is one atomic step
of the single-threaded event loop, per §5 of the specification). -/
theorem analyze_active_no_new_scalp (cfg : ScalpConfig) (st : ScalperState)
    (symbol : String) (currentPrice : ℚ) (now : Int) (env : AnalyzeEnv)
    (scalp : ActiveScalp) (h1 : st.activeScalps symbol = Option.some scalp)
    (h2 : scalp.status = ScalpStatus.active) :
    (analyze cfg st symbol currentPrice now env).2.1 = Option.none ∧
      (analyze cfg st symbol currentPrice now env).1.activeScalps =
        Function.update st.activeScalps symbol
          ((analyze cfg st symbol currentPrice now env).1.activeScalps symbol) ∧
      ((analyze cfg st symbol currentPrice now env).1.activeScalps symbol =
          st.activeScalps symbol ∨
        (analyze cfg st symbol currentPrice now env).1.activeScalps symbol =
          Option.none) := by
  unfold analyze
  by_cases hcool : now - st.lastSignalTime symbol < cfg.cooldownMs
  · rw [if_pos hcool]
    exact ⟨rfl, (Function.update_eq_self symbol st.activeScalps).symm, Or.inl rfl⟩
  · rw [if_neg hcool, h1]
    dsimp only
    rw [if_pos h2]
    obtain ⟨-, hcase⟩ :=
      checkScalpExit_state cfg st symbol currentPrice now env.exitBook
    rcases hcase with hsame | hupd
    · refine ⟨rfl, ?_, Or.inl ?_⟩
      · rw [hsame]
        exact (Function.update_eq_self symbol st.activeScalps).symm
      · rw [hsame, h1]
    · refine ⟨rfl, ?_, Or.inr ?_⟩
      · rw [hupd, Function.update_same]
      · rw [hupd]
        exact Function.update_same symbol Option.none st.activeScalps

/-- Witness for C1: `analyze` on the state holding the active scalp `scalpC3`
(after the cooldown has elapsed) returns no signal and creates nothing. -/
theorem analyze_active_no_new_scalp_witness :
    (analyze DEFAULT_CONFIG stC3 "BTC/IDR" 100 160000 envTrivial).2.1 = Option.none ∧
      (analyze DEFAULT_CONFIG stC3 "BTC/IDR" 100 160000 envTrivial).1.activeScalps =
        Function.update stC3.activeScalps "BTC/IDR"
          ((analyze DEFAULT_CONFIG stC3 "BTC/IDR" 100 160000 envTrivial).1.activeScalps
            "BTC/IDR") ∧
      ((analyze DEFAULT_CONFIG stC3 "BTC/IDR" 100 160000 envTrivial).1.activeScalps
            "BTC/IDR" =
          stC3.activeScalps "BTC/IDR" ∨
        (analyze DEFAULT_CONFIG stC3 "BTC/IDR" 100 160000 envTrivial).1.activeScalps
            "BTC/IDR" =
          Option.none) :=
  analyze_active_no_new_scalp DEFAULT_CONFIG stC3 "BTC/IDR" 100 160000 envTrivial
    scalpC3 (by simp [stC3]) rfl

/-- Helper: the entry-analysis either rejects (returning the state untouched and no
signal) or emits a signal stamped with the call's symbol and time, updating
`lastSignalTime` for that symbol to the emission time. -/
theorem analyzeEntry_shape (cfg : ScalpConfig) (st : ScalperState) (symbol : String)
    (currentPrice : ℚ) (now : Int) (env : AnalyzeEnv) :
    ((analyzeEntry cfg st symbol currentPrice now env).2.1 = Option.none ∧
        (analyzeEntry cfg st symbol currentPrice now env).1.lastSignalTime =
          st.lastSignalTime) ∨
      (∃ sig, (analyzeEntry cfg st symbol currentPrice now env).2.1 = Option.some sig ∧
        sig.symbol = symbol ∧ sig.timestamp = now ∧
        (analyzeEntry cfg st symbol currentPrice now env).1.lastSignalTime =
          Function.update st.lastSignalTime symbol now) := by
  unfold analyzeEntry
  dsimp only
  by_cases hconf :
      max (entryScores cfg env).1 (entryScores cfg env).2 < cfg.minConfidence
  · rw [if_pos hconf]
    exact Or.inl ⟨rfl, rfl⟩
  · rw [if_neg hconf]
    by_cases hrr : cfg.takeProfitPercent / cfg.stopLossPercent < cfg.minRiskReward
    · rw [if_pos hrr]
      exact Or.inl ⟨rfl, rfl⟩
    · rw [if_neg hrr]
      exact Or.inr ⟨_, rfl, rfl, rfl, rfl⟩

/-- Helper: every `analyze` call either emits nothing and leaves `lastSignalTime`
untouched, or emits one signal for the call's symbol, stamped with the call's
time, which can only happen once the cooldown since `lastSignalTime[symbol]` has
fully elapsed — and then `lastSignalTime[symbol]` becomes the emission time. -/
theorem analyze_shape (cfg : ScalpConfig) (st : ScalperState) (symbol : String)
    (currentPrice : ℚ) (now : Int) (env : AnalyzeEnv) :
    ((analyze cfg st symbol currentPrice now env).2.1 = Option.none ∧
        (analyze cfg st symbol currentPrice now env).1.lastSignalTime =
          st.lastSignalTime) ∨
      (∃ sig, (analyze cfg st symbol currentPrice now env).2.1 = Option.some sig ∧
        sig.symbol = symbol ∧ sig.timestamp = now ∧
        st.lastSignalTime symbol + cfg.cooldownMs ≤ now ∧
        (analyze cfg st symbol currentPrice now env).1.lastSignalTime =
          Function.update st.lastSignalTime symbol now) := by
  unfold analyze
  by_cases hcool : now - st.lastSignalTime symbol < cfg.cooldownMs
  · rw [if_pos hcool]
    exact Or.inl ⟨rfl, rfl⟩
  · rw [if_neg hcool]
    have hle : st.lastSignalTime symbol + cfg.cooldownMs ≤ now := by omega
    have hentry := analyzeEntry_shape cfg st symbol currentPrice now env
    split
    · split
      · exact Or.inl
          ⟨rfl, (checkScalpExit_state cfg st symbol currentPrice now env.exitBook).1⟩
      · rcases hentry with ⟨hn, hl⟩ | ⟨sig, hs, hsym, ht, hl⟩
        · exact Or.inl ⟨hn, hl⟩
        · exact Or.inr ⟨sig, hs, hsym, ht, hle, hl⟩
    · rcases hentry with ⟨hn, hl⟩ | ⟨sig, hs, hsym, ht, hl⟩
      · exact Or.inl ⟨hn, hl⟩
      · exact Or.inr ⟨sig, hs, hsym, ht, hle, hl⟩

/-- Helper: appending one signal to the log extends exactly its own symbol's
emission-time list. -/
theorem emissionTimes_append (log : List ScalpSignal) (s : ScalpSignal)
    (symbol : String) :
    emissionTimes (log ++ [s]) symbol =
      emissionTimes log symbol ++
        (if s.symbol = symbol then [s.timestamp] else []) := by
  by_cases h : s.symbol = symbol
  · simp [emissionTimes, List.filter_append, h]
  · simp [emissionTimes, List.filter_append, h]

/-- Helper: one `analyze` call preserves the trace invariant. -/
theorem stepTrace_inv (cfg : ScalpConfig) (hcd : 0 ≤ cfg.cooldownMs)
    (acc : ScalperState × List ScalpSignal) (c : AnalyzeCall)
    (h : TraceInv cfg acc.1 acc.2) :
    TraceInv cfg (stepTrace cfg acc c).1 (stepTrace cfg acc c).2 := by
  rcases analyze_shape cfg acc.1 c.symbol c.currentPrice c.now c.env with
    ⟨h1, h2⟩ | ⟨sig, h1, h2, h3, h4, h5⟩
  · intro symbol
    have hlog : (stepTrace cfg acc c).2 = acc.2 := by
      simp [stepTrace, h1]
    have hlast : (stepTrace cfg acc c).1.lastSignalTime = acc.1.lastSignalTime := h2
    rw [hlog, hlast]
    exact h symbol
  · intro symbol
    have hlog : (stepTrace cfg acc c).2 = acc.2 ++ [sig] := by
      simp [stepTrace, h1]
    have hlast : (stepTrace cfg acc c).1.lastSignalTime =
        Function.update acc.1.lastSignalTime c.symbol c.now := h5
    rw [hlog, hlast, emissionTimes_append]
    by_cases hsym : c.symbol = symbol
    · subst hsym
      rw [if_pos h2]
      constructor
      · intro t ht
        rw [Function.update_same]
        rcases List.mem_append.mp ht with hold | hnew
        · have hb := (h c.symbol).1 t hold
          omega
        · have : t = sig.timestamp := by simpa using hnew
          omega
      · refine List.pairwise_append.mpr
          ⟨(h c.symbol).2, List.pairwise_singleton _ _, ?_⟩
        intro a ha b hb
        have hbt : b = sig.timestamp := by simpa using hb
        have hA := (h c.symbol).1 a ha
        omega
    · rw [if_neg (fun hh => hsym (h2 ▸ hh)), List.append_nil]
      constructor
      · intro t ht
        rw [Function.update_noteq (Ne.symm hsym)]
        exact (h symbol).1 t ht
      · exact (h symbol).2

/-- Helper: a whole sequence of `analyze` calls preserves the trace invariant. -/
theorem runTraceFrom_inv (cfg : ScalpConfig) (hcd : 0 ≤ cfg.cooldownMs)
    (calls : List AnalyzeCall) :
    ∀ acc : ScalperState × List ScalpSignal, TraceInv cfg acc.1 acc.2 →
      TraceInv cfg (runTraceFrom cfg acc calls).1 (runTraceFrom cfg acc calls).2 := by
  induction calls with
  | nil => exact fun acc h => h
  | cons c cs ih =>
    intro acc h
    exact ih (stepTrace cfg acc c) (stepTrace_inv cfg hcd acc c h)

/-- C2: over any sequence of `analyze` calls against a fresh Scalper (with a
non-negative cooldown), any two signals emitted for the same symbol have emission
timestamps at least `cooldownMs` apart: the emission-time list is pairwise
separated by the cooldown, because an emission requires the current time to be at
least `lastSignalTime[symbol] + cooldownMs` and stamps `lastSignalTime[symbol]`
with the emission time. -/
theorem cooldown_spacing (cfg : ScalpConfig) (hcd : 0 ≤ cfg.cooldownMs)
    (calls : List AnalyzeCall) (symbol : String) :
    (emissionTimes (runTrace cfg calls).2 symbol).Pairwise
      (fun a b => a + cfg.cooldownMs ≤ b) := by
  have hInit : TraceInv cfg initialScalperState [] := by
    intro s
    constructor
    · intro t ht
      simp [emissionTimes] at ht
    · simp [emissionTimes]
  exact ((runTraceFrom_inv cfg hcd calls (initialScalperState, []) hInit) symbol).2

/-- Witness for C2 on a concrete two-call trace for BTC/IDR with the default
30-second cooldown. -/
theorem cooldown_spacing_witness :
    (emissionTimes (runTrace DEFAULT_CONFIG callsW2).2 "BTC/IDR").Pairwise
      (fun a b => a + DEFAULT_CONFIG.cooldownMs ≤ b) :=
  cooldown_spacing DEFAULT_CONFIG (by norm_num [DEFAULT_CONFIG]) callsW2 "BTC/IDR"

theorem depthOf_nonneg (orders : List (ℚ × ℚ)) (h : ∀ l ∈ orders, 0 ≤ l.2) :
    0 ≤ depthOf orders := by
  refine List.sum_nonneg ?_
  intro x hx
  obtain ⟨l, hl, rfl⟩ := List.mem_map.mp hx
  exact h l hl

/-- C7: for arbitrary non-negative bid/ask level volumes, the imbalance computed by
`OrderBookAnalyzer.analyze` lies in `[-1, 1]`, and when both depth sums are `0` it is
exactly `0` (the guarded division never divides by zero). -/
theorem imbalance_bounded (bids asks : List (ℚ × ℚ))
    (hb : ∀ l ∈ bids, 0 ≤ l.2) (ha : ∀ l ∈ asks, 0 ≤ l.2) :
    -1 ≤ (analyzeOrderBook bids asks).imbalance ∧
      (analyzeOrderBook bids asks).imbalance ≤ 1 ∧
      (depthOf bids = 0 → depthOf asks = 0 → (analyzeOrderBook bids asks).imbalance = 0) := by
  have hbd : 0 ≤ depthOf bids := depthOf_nonneg bids hb
  have had : 0 ≤ depthOf asks := depthOf_nonneg asks ha
  have himb : (analyzeOrderBook bids asks).imbalance =
      if 0 < depthOf bids + depthOf asks then
        (depthOf bids - depthOf asks) / (depthOf bids + depthOf asks) else 0 := rfl
  rw [himb]
  split_ifs with hpos
  · refine ⟨?_, ?_, ?_⟩
    · rw [le_div_iff₀ hpos]
      linarith
    · rw [div_le_one hpos]
      linarith
    · intro h0b h0a
      rw [h0b, h0a] at hpos
      norm_num at hpos
  · exact ⟨by norm_num, by norm_num, fun _ _ => rfl⟩

/-- Witness for C7 at a concrete book: one bid of volume 2, one ask of volume 3. -/
theorem imbalance_bounded_witness :
    -1 ≤ (analyzeOrderBook [((100 : ℚ), 2)] [((101 : ℚ), 3)]).imbalance ∧
      (analyzeOrderBook [((100 : ℚ), 2)] [((101 : ℚ), 3)]).imbalance ≤ 1 ∧
      (depthOf [((100 : ℚ), 2)] = 0 → depthOf [((101 : ℚ), 3)] = 0 →
        (analyzeOrderBook [((100 : ℚ), 2)] [((101 : ℚ), 3)]).imbalance = 0) :=
  imbalance_bounded [((100 : ℚ), 2)] [((101 : ℚ), 3)]
    (by intro l hl; fin_cases hl; norm_num)
    (by intro l hl; fin_cases hl; norm_num)

/-- C8 counterexample: ten bid orders of volume 10 each (total bid depth 100), so
every order is exactly 10% of its side's depth. The claim says whale detection flags
this as `'buy'`, but the strict `>` comparison in `detectWhales` yields `'none'`. -/
theorem whale_exact_ten_percent_not_flagged :
    (analyzeOrderBook (List.replicate 10 ((100 : ℚ), 10)) []).bidDepth = 100 ∧
      (analyzeOrderBook (List.replicate 10 ((100 : ℚ), 10)) []).whaleActivity =
        WhaleActivity.none := by
  constructor
  · norm_num [analyzeOrderBook, depthOf, List.replicate]
  · norm_num [analyzeOrderBook, depthOf, detectWhales, whaleScan, whaleThreshold,
      List.replicate]

/-- C8 (amended): whale detection flags `'buy'` exactly when some single bid order's
volume strictly exceeds 10% of the bid depth, and `'sell'` exactly when no bid does
but some single ask order's volume strictly exceeds 10% of the ask depth; a volume
exactly equal to the 10% threshold is not flagged. -/
theorem detectWhales_strict (bids asks : List (ℚ × ℚ)) (bidDepth askDepth : ℚ) :
    (detectWhales bids asks bidDepth askDepth = WhaleActivity.buy ↔
      ∃ l ∈ bids, bidDepth * whaleThreshold < l.2) ∧
    (detectWhales bids asks bidDepth askDepth = WhaleActivity.sell ↔
      (¬ ∃ l ∈ bids, bidDepth * whaleThreshold < l.2) ∧
        ∃ l ∈ asks, askDepth * whaleThreshold < l.2) := by
  have scan_iff : ∀ (orders : List (ℚ × ℚ)) (depth : ℚ),
      whaleScan orders depth = true ↔ ∃ l ∈ orders, depth * whaleThreshold < l.2 := by
    intro orders depth
    induction orders with
    | nil => simp [whaleScan]
    | cons h t ih =>
      by_cases hc : depth * whaleThreshold < h.2
      · simp [whaleScan, hc]
      · simp [whaleScan, hc, ih]
  unfold detectWhales
  by_cases h1 : whaleScan bids bidDepth = true
  · simp [h1, ← scan_iff]
  · by_cases h2 : whaleScan asks askDepth = true
    · simp [h1, h2, ← scan_iff]
    · simp [h1, h2, ← scan_iff]

/-- Witness for C8's amended theorem: a bid of volume 30 against bid depth 40 is a
whale (30 > 4), established through the characterization. -/
theorem detectWhales_strict_witness :
    detectWhales [((100 : ℚ), 30), ((99 : ℚ), 10)] [] 40 0 = WhaleActivity.buy :=
  (detectWhales_strict [((100 : ℚ), 30), ((99 : ℚ), 10)] [] 40 0).1.mpr
    ⟨((100 : ℚ), 30), by norm_num, by norm_num [whaleThreshold]⟩

/-- C10: `bidAskRatio` as computed by `OrderBookAnalyzer.analyze` is total: it equals
`bidDepth / askDepth` when the ask depth is positive, and is defined as the neutral
value `1` (not `0`, not an error) when the ask side is empty of volume. -/
theorem bidAskRat_total (bids asks : List (ℚ × ℚ)) :
    ((analyzeOrderBook bids asks).askDepth = 0 → (analyzeOrderBook bids asks).bidAskRat = 1) ∧
      (0 < (analyzeOrderBook bids asks).askDepth →
        (analyzeOrderBook bids asks).bidAskRat =
          (analyzeOrderBook bids asks).bidDepth / (analyzeOrderBook bids asks).askDepth) := by
  have hask : (analyzeOrderBook bids asks).askDepth = depthOf asks := rfl
  have hbid : (analyzeOrderBook bids asks).bidDepth = depthOf bids := rfl
  have hrat : (analyzeOrderBook bids asks).bidAskRat =
      if 0 < depthOf asks then depthOf bids / depthOf asks else 1 := rfl
  constructor
  · intro h0
    rw [hask] at h0
    rw [hrat, h0]
    norm_num
  · intro hpos
    rw [hask] at hpos
    rw [hrat, hbid, hask, if_pos hpos]

/-- Witness for C10 at a book with a non-empty bid side and an empty ask side: the
ratio is 1 even though the bid depth is large. -/
theorem bidAskRat_total_witness :
    (analyzeOrderBook [((100 : ℚ), 1000000)] []).bidAskRat = 1 :=
  (bidAskRat_total [((100 : ℚ), 1000000)] []).1 (by norm_num [analyzeOrderBook, depthOf])

end CryptoSnipper
